import Mathlib

/-!
Shallow embedding of the placement-and-interaction controller of the
`VRPassthroughDancer` class (top-level application file; the second,
near-duplicate file `app.js` is an earlier cut of the same class and the
richer file is the one embedded here).

Modelling conventions:
  - Scalar quantities (positions, timestamps, opacity) are rationals.
  - The mutable fields of the single controller instance become the record
    `CState`; each JS method becomes a state-transition function.
  - External nondeterminism (whether an async platform request succeeds,
    the per-frame hit-test result, the per-frame input-source list, the
    result of the pointing raycast) is passed in as explicit arguments.
  - Methods whose only observable action beyond the state is issuing a
    request (audio `play()`, the scheduled fallback retry, the reposition
    transition inside the frame callback) additionally return a flag
    recording that the request was issued this call.
  - Purely cosmetic per-frame effects that touch no field any property
    depends on (reticle pulse scale, dancer idle spin, animation-mixer
    update, placard yaw facing) are not tracked in the state.
-/

/-- A 3-component vector (`THREE.Vector3` as used for positions). -/
structure V3 where
  x : ℚ
  y : ℚ
  z : ℚ
deriving DecidableEq, Repr

/-- A quaternion (`THREE.Quaternion` / XR orientation). -/
structure Quat where
  qx : ℚ
  qy : ℚ
  qz : ℚ
  qw : ℚ
deriving DecidableEq, Repr

/-- A surface-sample pose delivered by the hit test: position plus
orientation, as read off `hitPose.transform`. -/
structure Pose where
  position : V3
  orientation : Quat
deriving DecidableEq, Repr

/-- The immersive session mode strings used by the controller. -/
inductive SessionMode where
  | immersiveAR
  | immersiveVR
deriving DecidableEq, Repr

/-- A gamepad attached to an XR input source: the list of `pressed` flags of
its button array (`buttons[i].pressed`); a missing index reads as not
pressed, matching the `buttons[i] && buttons[i].pressed` guard. -/
structure Gamepad where
  buttons : List Bool
deriving DecidableEq, Repr

/-- An XR input source as far as the reposition-button scan consults it:
it may or may not expose a gamepad. -/
structure InputSource where
  gamepad : Option Gamepad
deriving DecidableEq, Repr

/-- The per-frame data the XR branch of `render` reads from the platform:
the input-source list, whether the controller raycast of the pointing
check hits the platform, whether `getViewerPose` returned a pose, the
hit-test outcome (`none` = empty result list, `some none` = a result whose
`getPose` returned null, `some (some p)` = a usable pose), and whether a
hit-test-source request issued this frame would succeed. -/
structure FrameInput where
  inputSources : List InputSource
  pointingAtPlatform : Bool
  viewerPoseAvail : Bool
  hitResults : Option (Option Pose)
  hitRequestSucceeds : Bool
deriving DecidableEq, Repr

/-- Observable requests issued by one XR frame: whether the reposition
(X-button) edge fired `enableRepositioning`, and whether
`frame.getHitTestResults` was consulted (hit-test sampling performed). -/
structure FrameFx where
  repositionFired : Bool
  hitSampled : Bool
deriving DecidableEq, Repr

/-- The mutable fields of the `VRPassthroughDancer` instance that the
placement-and-interaction logic reads or writes. `...Some` fields model
object references that may still be null (placard texture or dancer model
not yet loaded); `positionalAudioSome` models `this.positionalAudio`,
created unconditionally during setup. -/
structure CState where
  xrSession : Bool
  hitTestSource : Bool
  hitTestSourceRequested : Bool
  isPlaced : Bool
  xButtonPressed : Bool
  preferredMode : SessionMode
  reticleVisible : Bool
  reticlePosition : V3
  reticleOrientation : Quat
  platformPosition : V3
  platformVisible : Bool
  dancerSome : Bool
  dancerVisible : Bool
  placardSome : Bool
  placardVisible : Bool
  placardOpacity : ℚ
  placardFadeStartTime : Option ℚ
  positionalAudioSome : Bool
  audioLoaded : Bool
  audioLoop : Bool
  audioIsPlaying : Bool
  startButtonDisabled : Bool
  infoVisible : Bool
  statusShowsStartError : Bool
deriving DecidableEq, Repr

/-- The fixed fallback pose: `platform.position.set(0, 0.3, -1)` — one
meter forward at table height. -/
def defaultPosition : V3 := ⟨0, 3 / 10, -1⟩

/-- Controller state right after the constructor and the synchronous parts
of `init` have run: nothing requested, nothing placed, reticle and
platform hidden, audio created but not loaded, preferred mode
`immersive-vr` until `checkXRSupport` updates it. -/
def initialState : CState where
  xrSession := false
  hitTestSource := false
  hitTestSourceRequested := false
  isPlaced := false
  xButtonPressed := false
  preferredMode := SessionMode.immersiveVR
  reticleVisible := false
  reticlePosition := ⟨0, 0, 0⟩
  reticleOrientation := ⟨0, 0, 0, 1⟩
  platformPosition := ⟨0, 0, 0⟩
  platformVisible := false
  dancerSome := false
  dancerVisible := false
  placardSome := false
  placardVisible := false
  placardOpacity := 0
  placardFadeStartTime := none
  positionalAudioSome := true
  audioLoaded := false
  audioLoop := false
  audioIsPlaying := false
  startButtonDisabled := false
  infoVisible := true
  statusShowsStartError := false

/-- `placeAtDefaultPosition`: move the platform to the fixed default pose,
show it, and show the dancer if the model has loaded. Deliberately does
not touch `isPlaced` (source comment: allow repositioning via hit-test). -/
def placeAtDefaultPosition (s : CState) : CState :=
  let s1 := { s with platformPosition := defaultPosition, platformVisible := true }
  if s1.dancerSome then { s1 with dancerVisible := true } else s1

/-- The success callback of `audioLoader.load`: buffer set, looping
enabled, load flag raised. -/
def onAudioLoaded (s : CState) : CState :=
  { s with audioLoaded := true, audioLoop := true }

/-- `playAudio`: issue `positionalAudio.play()` only when the asset has
loaded, the audio object exists, and it is not already playing; the
returned flag records whether `play()` was issued. -/
def playAudio (s : CState) : CState × Bool :=
  if s.audioLoaded && s.positionalAudioSome && !s.audioIsPlaying then
    ({ s with audioIsPlaying := true }, true)
  else
    (s, false)

/-- `onSelect`: if the reticle is visible, commit the platform to the
reticle position, show platform and dancer, latch `isPlaced`, hide the
reticle, and run `playAudio`; otherwise, if not placed, fall back to the
default position. The flag is the `playAudio` request flag. -/
def onSelect (s : CState) : CState × Bool :=
  if s.reticleVisible then
    let s1 := { s with
      platformPosition := s.reticlePosition,
      platformVisible := true,
      dancerVisible := true,
      isPlaced := true,
      reticleVisible := false }
    playAudio s1
  else if !s.isPlaced then
    (placeAtDefaultPosition s, false)
  else
    (s, false)

/-- `showPlacard`: if the placard exists and is hidden, show it and record
the fade start time (`performance.now()` passed in as `now`). -/
def showPlacard (now : ℚ) (s : CState) : CState :=
  if s.placardSome && !s.placardVisible then
    { s with placardVisible := true, placardFadeStartTime := some now }
  else s

/-- `hidePlacard`: if the placard exists and is visible, hide it, snap its
opacity to 0 and clear the fade marker. -/
def hidePlacard (s : CState) : CState :=
  if s.placardSome && s.placardVisible then
    { s with placardVisible := false, placardOpacity := 0, placardFadeStartTime := none }
  else s

/-- `enableRepositioning`: clear the placement latch and force-hide the
placard if it is showing. -/
def enableRepositioning (s : CState) : CState :=
  let s1 := { s with isPlaced := false }
  if s1.placardSome && s1.placardVisible then hidePlacard s1 else s1

/-- `requestHitTestSource`: idempotent via the requested flag; on platform
success the feed handle is stored, on failure (hit test unsupported) the
controller falls back to the default position. Success or failure of the
awaited platform request is the `succeeds` argument. -/
def requestHitTestSource (succeeds : Bool) (s : CState) : CState :=
  if s.hitTestSourceRequested then s
  else
    let s1 := { s with hitTestSourceRequested := true }
    if succeeds then { s1 with hitTestSource := true }
    else placeAtDefaultPosition s1

/-- `onSessionEnded`: drop the session, the hit-test feed handle and its
requested flag, clear the placement latch, hide the placard and reset its
fade, re-enable the start button and restore the info panel. The status
line is replaced by the session-ended text, so the start-error status is
cleared. Audio fields are not touched. -/
def onSessionEnded (s : CState) : CState :=
  let s1 := { s with
    xrSession := false,
    hitTestSource := false,
    hitTestSourceRequested := false,
    isPlaced := false }
  let s2 :=
    if s1.placardSome then
      { s1 with placardVisible := false, placardOpacity := 0, placardFadeStartTime := none }
    else s1
  { s2 with startButtonDisabled := false, infoVisible := true,
            statusShowsStartError := false }

/-- Outcome of one `startXRSession` attempt as decided by the platform:
either the session request succeeds, or it throws an error whose message
may or may not contain the substring checked by the catch clause
("already an active" session). -/
inductive StartResult where
  | ok
  | err (alreadyActive : Bool)
deriving DecidableEq, Repr

/-- `startXRSession`: disable the start button; end and await any session
still open (its end event runs `onSessionEnded` before the new request is
issued); then either the request succeeds — session stored, dancer
auto-placed at the default position — or the catch clause runs: error
status shown, button re-enabled, and, only when the preferred mode was
`immersive-ar` and the error is not an already-active-session error, the
preferred mode is flipped to `immersive-vr` and one delayed retry of
`startXRSession` is scheduled. The returned flag records whether that
retry was scheduled. -/
def startXRSession (res : StartResult) (s : CState) : CState × Bool :=
  let s0 := { s with startButtonDisabled := true }
  let s0 := if s0.xrSession then onSessionEnded s0 else s0
  match res with
  | StartResult.ok =>
      let s1 := { s0 with xrSession := true, statusShowsStartError := false }
      (placeAtDefaultPosition s1, false)
  | StartResult.err alreadyActive =>
      let s1 := { s0 with statusShowsStartError := true, startButtonDisabled := false }
      if s1.preferredMode = SessionMode.immersiveAR && !alreadyActive then
        ({ s1 with preferredMode := SessionMode.immersiveVR }, true)
      else
        (s1, false)

/-- The placard fade-in duration constant (`fadeInDuration = 1500` ms). -/
def fadeInDuration : ℚ := 1500

/-- The placard fade-in block at the top of `render`: while the placard is
visible and a fade start time is recorded, opacity is the eased clamped
progress, and once progress reaches 1 the start-time marker is cleared. -/
def placardFadeStep (now : ℚ) (s : CState) : CState :=
  match s.placardFadeStartTime with
  | none => s
  | some t0 =>
      if s.placardSome && s.placardVisible then
        let elapsed := now - t0
        let progress := min (elapsed / fadeInDuration) 1
        let easeProgress := progress * (2 - progress)
        let s1 := { s with placardOpacity := easeProgress }
        if 1 ≤ progress then { s1 with placardFadeStartTime := none } else s1
      else s

/-- Whether one gamepad reports the reposition buttons (index 4 = X/A,
index 5 = Y/B) pressed. -/
def gamepadRepositionPressed (g : Gamepad) : Bool :=
  g.buttons.getD 4 false || g.buttons.getD 5 false

/-- The button scan of the frame callback: any input source with a gamepad
whose button 4 or 5 is pressed (the source loop breaks at the first). -/
def scanRepositionButtons (sources : List InputSource) : Bool :=
  sources.any fun src =>
    match src.gamepad with
    | some g => gamepadRepositionPressed g
    | none => false

/-- The X-button edge-detection block of the frame callback: fire
`enableRepositioning` exactly when the button is pressed this frame and
was not pressed last frame, then store the current level. The flag
records whether the transition fired. -/
def edgeStep (pressed : Bool) (s : CState) : CState × Bool :=
  let fired := pressed && !s.xButtonPressed
  let s1 := if fired then enableRepositioning s else s
  ({ s1 with xButtonPressed := pressed }, fired)

/-- The pointing block of the frame callback: only while placed and the
platform is visible, show the placard when the controller ray hits the
platform and hide it when not. The raycast outcome is the `pointing`
argument. -/
def pointingStep (now : ℚ) (pointing : Bool) (s : CState) : CState :=
  if s.isPlaced && s.platformVisible then
    if pointing then
      if !s.placardVisible then showPlacard now s else s
    else
      if s.placardVisible then hidePlacard s else s
  else s

/-- The hit-test block of the frame callback: while not placed, issue the
feed request once, and when a feed and a viewer pose exist, consult the
hit-test results of the frame — a usable pose moves and shows the reticle, an
empty result list hides it, a null pose leaves it untouched. While
placed, the reticle is forced invisible and no sampling happens. The flag
records whether `getHitTestResults` was consulted. -/
def reticleStep (inp : FrameInput) (s : CState) : CState × Bool :=
  if !s.isPlaced then
    let s1 :=
      if !s.hitTestSource && !s.hitTestSourceRequested then
        requestHitTestSource inp.hitRequestSucceeds s
      else s
    if s1.hitTestSource && inp.viewerPoseAvail then
      match inp.hitResults with
      | some (some hp) =>
          ({ s1 with reticleVisible := true,
                     reticlePosition := hp.position,
                     reticleOrientation := hp.orientation }, true)
      | some none => (s1, true)
      | none => ({ s1 with reticleVisible := false }, true)
    else (s1, false)
  else
    ({ s with reticleVisible := false }, false)

/-- The XR branch of `render` (frame and session both present): button
edge detection, pointing-driven placard show/hide, then the hit-test
reticle block, in source order. -/
def renderXRFrame (now : ℚ) (inp : FrameInput) (s : CState) : CState × FrameFx :=
  let e := edgeStep (scanRepositionButtons inp.inputSources) s
  let s2 := pointingStep now inp.pointingAtPlatform e.1
  let r := reticleStep inp s2
  (r.1, ⟨e.2, r.2⟩)

/-- One whole `render` tick: the placard fade runs first; then either the
XR branch (when a frame and a session exist) or the desktop-preview
branch, which only places and shows the platform when it is hidden. -/
def render (now : ℚ) (fi : Option FrameInput) (s : CState) : CState × FrameFx :=
  let s0 := placardFadeStep now s
  match fi with
  | some inp => renderXRFrame now inp s0
  | none =>
      let s1 :=
        if !s0.platformVisible then
          { s0 with platformPosition := ⟨0, 0, -1⟩,
                    platformVisible := true, dancerVisible := true }
        else s0
      (s1, ⟨false, false⟩)

/-- Run a list of XR frames in sequence, totalling how many reposition
transitions fired. -/
def runXRFrames (now : ℚ) (s : CState) : List FrameInput → CState × ℕ
  | [] => (s, 0)
  | i :: is =>
      let r := renderXRFrame now i s
      let rest := runXRFrames now r.1 is
      (rest.1, (if r.2.repositionFired then 1 else 0) + rest.2)

/-! ## Concrete states and frame inputs used by the closed theorems -/

/-- A surface sample used as a concrete hit-test pose. -/
def samplePose : Pose := ⟨⟨1, 0, -2⟩, ⟨0, 0, 0, 1⟩⟩

/-- Controller state on the first XR frame of a fresh session, before any
feed request was made. -/
def freshSessionState : CState :=
  { initialState with xrSession := true, dancerSome := true }

/-- A state in Tracking: session live, feed acquired, reticle visible at a
sample pose, audio loaded but not yet playing. -/
def trackingState : CState :=
  { freshSessionState with
    hitTestSource := true, hitTestSourceRequested := true,
    reticleVisible := true, reticlePosition := samplePose.position,
    audioLoaded := true, audioLoop := true }

/-- A state in Unplaced with no visible reticle and the platform parked
away from the default position. -/
def unplacedNoReticleState : CState :=
  { freshSessionState with platformPosition := ⟨5, 5, 5⟩ }

/-- A committed (Placed) state with the spatial audio already playing and
the placard loaded. -/
def playingPlacedState : CState :=
  { freshSessionState with
    hitTestSource := true, hitTestSourceRequested := true,
    isPlaced := true, platformVisible := true, dancerVisible := true,
    platformPosition := samplePose.position,
    audioLoaded := true, audioLoop := true, audioIsPlaying := true,
    placardSome := true }

/-- A frame with no input sources, a viewer pose, and a usable hit-test
result standing by (visible only if a feed exists). -/
def idleFrame : FrameInput :=
  ⟨[], false, true, some (some samplePose), true⟩

/-- A frame whose single input source holds gamepad button 4 pressed (the
reposition trigger). -/
def pressFrame : FrameInput :=
  ⟨[⟨some ⟨[false, false, false, false, true]⟩⟩], false, true, none, true⟩

/-- The pre-session state after the capability probe reported passthrough
support. -/
def arCapableState : CState :=
  { initialState with preferredMode := SessionMode.immersiveAR }

/-- A committed state in the middle of a placard fade that started at
time 1000. -/
def fadingState : CState :=
  { playingPlacedState with
    placardVisible := true, placardFadeStartTime := some 1000 }

/-- State of the feed after a failed hit-test-source request: no feed
handle, request latched (never retried), reticle hidden. -/
def feedFailedInv (s : CState) : Prop :=
  s.hitTestSource = false ∧ s.hitTestSourceRequested = true ∧ s.reticleVisible = false

/-! ## Field-preservation lemmas for the frame-callback stages -/

theorem hidePlacard_fields (s : CState) :
    (hidePlacard s).hitTestSource = s.hitTestSource ∧
    (hidePlacard s).hitTestSourceRequested = s.hitTestSourceRequested ∧
    (hidePlacard s).reticleVisible = s.reticleVisible ∧
    (hidePlacard s).platformPosition = s.platformPosition ∧
    (hidePlacard s).isPlaced = s.isPlaced ∧
    (hidePlacard s).xButtonPressed = s.xButtonPressed ∧
    (hidePlacard s).audioIsPlaying = s.audioIsPlaying := by
  unfold hidePlacard
  split <;> simp

theorem showPlacard_fields (now : ℚ) (s : CState) :
    (showPlacard now s).hitTestSource = s.hitTestSource ∧
    (showPlacard now s).hitTestSourceRequested = s.hitTestSourceRequested ∧
    (showPlacard now s).reticleVisible = s.reticleVisible ∧
    (showPlacard now s).platformPosition = s.platformPosition ∧
    (showPlacard now s).isPlaced = s.isPlaced ∧
    (showPlacard now s).xButtonPressed = s.xButtonPressed ∧
    (showPlacard now s).audioIsPlaying = s.audioIsPlaying := by
  unfold showPlacard
  split <;> simp

theorem enableRepositioning_fields (s : CState) :
    (enableRepositioning s).hitTestSource = s.hitTestSource ∧
    (enableRepositioning s).hitTestSourceRequested = s.hitTestSourceRequested ∧
    (enableRepositioning s).reticleVisible = s.reticleVisible ∧
    (enableRepositioning s).platformPosition = s.platformPosition ∧
    (enableRepositioning s).isPlaced = false ∧
    (enableRepositioning s).xButtonPressed = s.xButtonPressed ∧
    (enableRepositioning s).audioIsPlaying = s.audioIsPlaying := by
  simp only [enableRepositioning]
  split
  · simp [hidePlacard_fields]
  · simp

theorem edgeStep_fields (p : Bool) (s : CState) :
    ((edgeStep p s).1).hitTestSource = s.hitTestSource ∧
    ((edgeStep p s).1).hitTestSourceRequested = s.hitTestSourceRequested ∧
    ((edgeStep p s).1).reticleVisible = s.reticleVisible ∧
    ((edgeStep p s).1).platformPosition = s.platformPosition ∧
    ((edgeStep p s).1).xButtonPressed = p ∧
    ((edgeStep p s).1).audioIsPlaying = s.audioIsPlaying ∧
    (edgeStep p s).2 = (p && !s.xButtonPressed) := by
  simp only [edgeStep]
  split
  · simp [enableRepositioning_fields]
  · simp

theorem pointingStep_fields (now : ℚ) (b : Bool) (s : CState) :
    (pointingStep now b s).hitTestSource = s.hitTestSource ∧
    (pointingStep now b s).hitTestSourceRequested = s.hitTestSourceRequested ∧
    (pointingStep now b s).reticleVisible = s.reticleVisible ∧
    (pointingStep now b s).platformPosition = s.platformPosition ∧
    (pointingStep now b s).isPlaced = s.isPlaced ∧
    (pointingStep now b s).xButtonPressed = s.xButtonPressed ∧
    (pointingStep now b s).audioIsPlaying = s.audioIsPlaying := by
  unfold pointingStep
  split
  · split
    · split
      · exact showPlacard_fields now s
      · simp
    · split
      · exact hidePlacard_fields s
      · simp
  · simp

theorem placeAtDefaultPosition_fields (s : CState) :
    (placeAtDefaultPosition s).platformPosition = defaultPosition ∧
    (placeAtDefaultPosition s).platformVisible = true ∧
    (placeAtDefaultPosition s).isPlaced = s.isPlaced ∧
    (placeAtDefaultPosition s).hitTestSource = s.hitTestSource ∧
    (placeAtDefaultPosition s).hitTestSourceRequested = s.hitTestSourceRequested ∧
    (placeAtDefaultPosition s).reticleVisible = s.reticleVisible ∧
    (placeAtDefaultPosition s).audioIsPlaying = s.audioIsPlaying ∧
    (placeAtDefaultPosition s).xButtonPressed = s.xButtonPressed := by
  simp only [placeAtDefaultPosition]
  split <;> simp

theorem requestHitTestSource_fail_eq (s : CState)
    (hreq : s.hitTestSourceRequested = false) :
    requestHitTestSource false s =
      placeAtDefaultPosition { s with hitTestSourceRequested := true } := by
  simp [requestHitTestSource, hreq]

/-! ## The feed-failure invariant: once the hit-test feed request has
failed, the request flag stays latched, no feed exists, and the reticle
can never become visible again (Tracking is unreachable). -/

theorem reticleStep_feedFailedInv (inp : FrameInput) (s : CState)
    (h : feedFailedInv s) : feedFailedInv ((reticleStep inp s).1) := by
  obtain ⟨h1, h2, h3⟩ := h
  simp only [reticleStep, feedFailedInv, h1, h2, h3]
  split <;> simp [h1, h2, h3]

theorem renderXRFrame_feedFailedInv (now : ℚ) (inp : FrameInput) (s : CState)
    (h : feedFailedInv s) : feedFailedInv ((renderXRFrame now inp s).1) := by
  obtain ⟨h1, h2, h3⟩ := h
  show feedFailedInv ((reticleStep inp (pointingStep now inp.pointingAtPlatform
    ((edgeStep (scanRepositionButtons inp.inputSources) s).1))).1)
  apply reticleStep_feedFailedInv
  have he := edgeStep_fields (scanRepositionButtons inp.inputSources) s
  have hp := pointingStep_fields now inp.pointingAtPlatform
    ((edgeStep (scanRepositionButtons inp.inputSources) s).1)
  exact ⟨by rw [hp.1, he.1, h1], by rw [hp.2.1, he.2.1, h2],
         by rw [hp.2.2.1, he.2.2.1, h3]⟩

theorem runXRFrames_feedFailedInv (now : ℚ) (l : List FrameInput) (s : CState)
    (h : feedFailedInv s) : feedFailedInv ((runXRFrames now s l).1) := by
  induction l generalizing s with
  | nil => exact h
  | cons i is ih =>
      simp only [runXRFrames]
      exact ih _ (renderXRFrame_feedFailedInv now i s h)

/-! ## Claim C1 -/

/-- C1 counterexample: on a fresh session, a failed hit-test feed request
moves the platform to the fixed default pose but leaves `isPlaced` false:
the controller does not enter the Placed state, contrary to the claim. -/
theorem feed_failure_not_placed_cex :
    (requestHitTestSource false freshSessionState).isPlaced = false ∧
    (requestHitTestSource false freshSessionState).platformPosition = defaultPosition :=
  ⟨rfl, rfl⟩

/-- C1 (amended): when the hit-test feed request fails, the controller
falls back to the fixed default pose (0, 0.3, -1) and shows the platform,
but deliberately leaves the placement latch unset (the state stays
Unplaced so the user can still reposition); Tracking is indeed never
visited: the reticle stays hidden on every later frame because the feed
is absent and the request flag blocks any retry. -/
theorem feed_failure_fallback_unplaced (s : CState)
    (hreq : s.hitTestSourceRequested = false)
    (hsrc : s.hitTestSource = false)
    (hret : s.reticleVisible = false) :
    (requestHitTestSource false s).platformPosition = defaultPosition ∧
    (requestHitTestSource false s).platformVisible = true ∧
    (requestHitTestSource false s).isPlaced = s.isPlaced ∧
    feedFailedInv (requestHitTestSource false s) ∧
    ∀ (now : ℚ) (l : List FrameInput),
      ((runXRFrames now (requestHitTestSource false s) l).1).reticleVisible = false := by
  rw [requestHitTestSource_fail_eq s hreq]
  have hf := placeAtDefaultPosition_fields { s with hitTestSourceRequested := true }
  have hinv : feedFailedInv (placeAtDefaultPosition { s with hitTestSourceRequested := true }) :=
    ⟨by rw [hf.2.2.2.1]; simpa using hsrc,
     by rw [hf.2.2.2.2.1],
     by rw [hf.2.2.2.2.2.1]; simpa using hret⟩
  refine ⟨hf.1, hf.2.1, by rw [hf.2.2.1], hinv, ?_⟩
  intro now l
  exact (runXRFrames_feedFailedInv now l _ hinv).2.2

/-- C1 amended-claim witness at a concrete fresh-session state and a
concrete two-frame continuation. -/
theorem feed_failure_fallback_unplaced_witness :
    (requestHitTestSource false freshSessionState).platformVisible = true ∧
    ((runXRFrames 0 (requestHitTestSource false freshSessionState)
      [idleFrame, idleFrame]).1).reticleVisible = false :=
  ⟨(feed_failure_fallback_unplaced freshSessionState rfl rfl rfl).2.1,
   (feed_failure_fallback_unplaced freshSessionState rfl rfl rfl).2.2.2.2
     0 [idleFrame, idleFrame]⟩

/-! ## Claim C2 -/

/-- C2: a select event while the reticle is visible at sample pose p
commits the platform to exactly p, latches placement, hides the reticle,
and issues the audio play request exactly when the gate is open (asset
loaded, audio object present, not already playing); when issued, playback
is latched on. -/
theorem select_commit_exact (s : CState) (h : s.reticleVisible = true) :
    ((onSelect s).1).isPlaced = true ∧
    ((onSelect s).1).platformPosition = s.reticlePosition ∧
    ((onSelect s).1).reticleVisible = false ∧
    (onSelect s).2 = (s.audioLoaded && s.positionalAudioSome && !s.audioIsPlaying) ∧
    ((onSelect s).2 = true → ((onSelect s).1).audioIsPlaying = true) := by
  have hsel : onSelect s = playAudio { s with
      platformPosition := s.reticlePosition, platformVisible := true,
      dancerVisible := true, isPlaced := true, reticleVisible := false } := by
    simp [onSelect, h]
  rw [hsel]
  unfold playAudio
  split <;> simp_all

/-- C2 witness: the commit at the concrete Tracking state. -/
theorem select_commit_exact_witness :
    ((onSelect trackingState).1).isPlaced = true ∧
    ((onSelect trackingState).1).platformPosition = trackingState.reticlePosition ∧
    ((onSelect trackingState).1).reticleVisible = false ∧
    (onSelect trackingState).2 =
      (trackingState.audioLoaded && trackingState.positionalAudioSome &&
        !trackingState.audioIsPlaying) ∧
    ((onSelect trackingState).2 = true →
      ((onSelect trackingState).1).audioIsPlaying = true) :=
  select_commit_exact trackingState rfl

/-! ## Claim C4 -/

/-- C4 counterexample: at a committed state with the spatial audio
playing, `onSessionEnded` leaves the audio playing and the play gate
latched — a later commit still issues no play request — so the audio gate
is not relatched to closed, contrary to the claim. -/
theorem session_end_audio_not_reset_cex :
    (onSessionEnded playingPlacedState).audioIsPlaying = true ∧
    (playAudio (onSessionEnded playingPlacedState)).2 = false :=
  ⟨rfl, rfl⟩

/-- C4 (amended): session end clears the hit-test feed handle and its
requested flag, clears the placement latch (back to Unplaced), hides the
placard and resets its fade, re-enables the start button and restores the
info panel; but the audio state is untouched — the playing flag and the
load flag are carried over unchanged, so the audio gate is not relatched. -/
theorem session_end_clears_session_state (s : CState) :
    (onSessionEnded s).xrSession = false ∧
    (onSessionEnded s).hitTestSource = false ∧
    (onSessionEnded s).hitTestSourceRequested = false ∧
    (onSessionEnded s).isPlaced = false ∧
    (s.placardSome = true →
      (onSessionEnded s).placardVisible = false ∧
      (onSessionEnded s).placardOpacity = 0 ∧
      (onSessionEnded s).placardFadeStartTime = none) ∧
    (onSessionEnded s).startButtonDisabled = false ∧
    (onSessionEnded s).infoVisible = true ∧
    (onSessionEnded s).audioIsPlaying = s.audioIsPlaying ∧
    (onSessionEnded s).audioLoaded = s.audioLoaded := by
  simp only [onSessionEnded]
  split <;> simp_all

/-- C4 amended-claim witness at the concrete playing committed state. -/
theorem session_end_clears_session_state_witness :
    (onSessionEnded playingPlacedState).isPlaced = false ∧
    (onSessionEnded playingPlacedState).hitTestSource = false ∧
    (onSessionEnded playingPlacedState).placardVisible = false ∧
    (onSessionEnded playingPlacedState).audioIsPlaying =
      playingPlacedState.audioIsPlaying :=
  ⟨(session_end_clears_session_state playingPlacedState).2.2.2.1,
   (session_end_clears_session_state playingPlacedState).2.1,
   ((session_end_clears_session_state playingPlacedState).2.2.2.2.1 rfl).1,
   (session_end_clears_session_state playingPlacedState).2.2.2.2.2.2.2.1⟩

/-! ## Claim C5 -/

/-- C5 counterexample: a select at an Unplaced state with no visible
reticle is not a no-op — it moves the platform to the default position
and shows it, so the state does change, contrary to the claim. -/
theorem select_unplaced_not_noop_cex :
    ((onSelect unplacedNoReticleState).1) ≠ unplacedNoReticleState ∧
    ((onSelect unplacedNoReticleState).1).platformPosition = defaultPosition := by
  refine ⟨fun hEq => ?_, rfl⟩
  have h1 : ((onSelect unplacedNoReticleState).1).platformVisible = true := rfl
  have h2 : unplacedNoReticleState.platformVisible = false := rfl
  rw [hEq, h2] at h1
  exact Bool.noConfusion h1

/-- C5 (amended): a select while Unplaced with no current surface sample
leaves the placement state Unplaced and issues no audio play request, but
it is not a full no-op: the handler re-runs the default placement, moving
the platform to (0, 0.3, -1) and making it (and the dancer, when loaded)
visible. -/
theorem select_unplaced_default_placement (s : CState)
    (hret : s.reticleVisible = false) (hpl : s.isPlaced = false) :
    onSelect s = (placeAtDefaultPosition s, false) ∧
    ((onSelect s).1).isPlaced = false ∧
    ((onSelect s).1).platformPosition = defaultPosition ∧
    (onSelect s).2 = false := by
  have heq : onSelect s = (placeAtDefaultPosition s, false) := by
    simp [onSelect, hret, hpl]
  have hf := placeAtDefaultPosition_fields s
  refine ⟨heq, ?_, ?_, by rw [heq]⟩
  · rw [heq]; simpa [hf.2.2.1] using hpl
  · rw [heq]; exact hf.1

/-- C5 amended-claim witness at the concrete Unplaced state. -/
theorem select_unplaced_default_placement_witness :
    onSelect unplacedNoReticleState =
      (placeAtDefaultPosition unplacedNoReticleState, false) ∧
    ((onSelect unplacedNoReticleState).1).isPlaced = false ∧
    ((onSelect unplacedNoReticleState).1).platformPosition = defaultPosition ∧
    (onSelect unplacedNoReticleState).2 = false :=
  select_unplaced_default_placement unplacedNoReticleState rfl rfl

/-! ## Claim C6 -/

theorem onSessionEnded_fields (s : CState) :
    (onSessionEnded s).preferredMode = s.preferredMode ∧
    (onSessionEnded s).audioIsPlaying = s.audioIsPlaying ∧
    (onSessionEnded s).audioLoaded = s.audioLoaded ∧
    (onSessionEnded s).audioLoop = s.audioLoop ∧
    (onSessionEnded s).platformPosition = s.platformPosition := by
  simp only [onSessionEnded]
  split <;> simp

theorem startXRSession_err_sched (b : Bool) (s : CState) :
    (startXRSession (StartResult.err b) s).2 =
      (decide (s.preferredMode = SessionMode.immersiveAR) && !b) := by
  simp only [startXRSession]
  split
  · have hm := (onSessionEnded_fields { s with startButtonDisabled := true }).1
    split <;> simp_all
  · split <;> simp_all

theorem startXRSession_err_mode (b : Bool) (s : CState) :
    ((startXRSession (StartResult.err b) s).1).preferredMode =
      (if (decide (s.preferredMode = SessionMode.immersiveAR) && !b) = true
        then SessionMode.immersiveVR else s.preferredMode) := by
  simp only [startXRSession]
  have hm := (onSessionEnded_fields { s with startButtonDisabled := true }).1
  split <;> split <;> (try split) <;> simp_all

theorem startXRSession_err_ui (b : Bool) (s : CState) :
    ((startXRSession (StartResult.err b) s).1).startButtonDisabled = false ∧
    ((startXRSession (StartResult.err b) s).1).statusShowsStartError = true := by
  simp only [startXRSession]
  split
  · split <;> simp_all
  · split <;> simp_all

/-- C6: a failed session-start attempt in the preferred passthrough mode
whose error is not an already-active-session error schedules exactly one
delayed retry with the preferred mode flipped to non-passthrough, shows
the failure as status text and re-enables the start button; the retried
attempt failing again schedules nothing further, and an
already-active-session failure schedules no retry at all. -/
theorem session_start_fallback_once (s : CState)
    (h : s.preferredMode = SessionMode.immersiveAR) :
    (startXRSession (StartResult.err false) s).2 = true ∧
    ((startXRSession (StartResult.err false) s).1).preferredMode =
      SessionMode.immersiveVR ∧
    ((startXRSession (StartResult.err false) s).1).startButtonDisabled = false ∧
    ((startXRSession (StartResult.err false) s).1).statusShowsStartError = true ∧
    (∀ b : Bool, (startXRSession (StartResult.err b)
      ((startXRSession (StartResult.err false) s).1)).2 = false) ∧
    (startXRSession (StartResult.err true) s).2 = false := by
  have h1 := startXRSession_err_sched false s
  have h2 := startXRSession_err_mode false s
  rw [h] at h1 h2
  simp only [decide_eq_true_eq] at h1 h2
  norm_num at h1 h2
  refine ⟨h1, h2, (startXRSession_err_ui false s).1, (startXRSession_err_ui false s).2,
    ?_, ?_⟩
  · intro b
    have h4 := startXRSession_err_sched b ((startXRSession (StartResult.err false) s).1)
    rw [h2] at h4
    simpa using h4
  · have h5 := startXRSession_err_sched true s
    rw [h] at h5
    simpa using h5

/-- C6 witness: the fallback policy run from the concrete passthrough-
capable pre-session state, with the retried attempt also failing. -/
theorem session_start_fallback_once_witness :
    (startXRSession (StartResult.err false) arCapableState).2 = true ∧
    ((startXRSession (StartResult.err false) arCapableState).1).preferredMode =
      SessionMode.immersiveVR ∧
    (startXRSession (StartResult.err false)
      ((startXRSession (StartResult.err false) arCapableState).1)).2 = false ∧
    (startXRSession (StartResult.err true) arCapableState).2 = false :=
  ⟨(session_start_fallback_once arCapableState rfl).1,
   (session_start_fallback_once arCapableState rfl).2.1,
   (session_start_fallback_once arCapableState rfl).2.2.2.2.1 false,
   (session_start_fallback_once arCapableState rfl).2.2.2.2.2⟩

/-! ## Claim C8 -/

theorem onSelect_played_isPlaying (s : CState) :
    (onSelect s).2 = true → ((onSelect s).1).audioIsPlaying = true := by
  simp only [onSelect]
  split
  · simp only [playAudio]; split <;> simp_all
  · split <;> simp

theorem onSelect_noPlay_of_playing (s : CState) (h : s.audioIsPlaying = true) :
    (onSelect s).2 = false := by
  simp only [onSelect]
  split
  · simp only [playAudio]; split <;> simp_all
  · split <;> simp

/-- C8: the audio play request is issued at most once per latch cycle — a
commit that issued the play request latches `isPlaying`, and any commit
made while `isPlaying` is latched issues nothing, so two commits in a row
never start playback twice; and a commit arriving before the audio asset
has loaded drops the play request silently, leaving the state unchanged
with nothing queued and no retry. -/
theorem audio_play_once_per_latch (s : CState) :
    ((onSelect s).2 = true → (onSelect ((onSelect s).1)).2 = false) ∧
    (s.audioIsPlaying = true → (onSelect s).2 = false) ∧
    (s.audioLoaded = false → playAudio s = (s, false)) := by
  refine ⟨fun hp => ?_, fun h => onSelect_noPlay_of_playing s h, fun hl => ?_⟩
  · exact onSelect_noPlay_of_playing _ (onSelect_played_isPlaying s hp)
  · simp [playAudio, hl]

/-- C8 witness: a double commit from the concrete Tracking state (the
first plays, the second does not), and the silent drop at the concrete
not-yet-loaded state. -/
theorem audio_play_once_per_latch_witness :
    (onSelect ((onSelect trackingState).1)).2 = false ∧
    playAudio freshSessionState = (freshSessionState, false) :=
  ⟨(audio_play_once_per_latch trackingState).1 rfl,
   (audio_play_once_per_latch freshSessionState).2.2 rfl⟩

/-! ## Claim C10 -/

theorem requestHitTestSource_fields (b : Bool) (s : CState) :
    (requestHitTestSource b s).audioIsPlaying = s.audioIsPlaying ∧
    (requestHitTestSource b s).isPlaced = s.isPlaced ∧
    (requestHitTestSource b s).xButtonPressed = s.xButtonPressed ∧
    (requestHitTestSource b s).reticleVisible = s.reticleVisible := by
  simp only [requestHitTestSource]
  split
  · simp
  · split
    · simp
    · simp [placeAtDefaultPosition_fields]

theorem reticleStep_fields (inp : FrameInput) (s : CState) :
    ((reticleStep inp s).1).audioIsPlaying = s.audioIsPlaying ∧
    ((reticleStep inp s).1).isPlaced = s.isPlaced ∧
    ((reticleStep inp s).1).xButtonPressed = s.xButtonPressed := by
  simp only [reticleStep]
  repeat' split
  all_goals simp [requestHitTestSource_fields]

theorem placardFadeStep_fields (now : ℚ) (s : CState) :
    (placardFadeStep now s).audioIsPlaying = s.audioIsPlaying ∧
    (placardFadeStep now s).platformPosition = s.platformPosition ∧
    (placardFadeStep now s).reticleVisible = s.reticleVisible ∧
    (placardFadeStep now s).isPlaced = s.isPlaced ∧
    (placardFadeStep now s).xButtonPressed = s.xButtonPressed ∧
    (placardFadeStep now s).hitTestSource = s.hitTestSource ∧
    (placardFadeStep now s).platformVisible = s.platformVisible := by
  simp only [placardFadeStep]
  repeat' split
  all_goals simp

theorem renderXRFrame_audio (now : ℚ) (inp : FrameInput) (s : CState) :
    ((renderXRFrame now inp s).1).audioIsPlaying = s.audioIsPlaying := by
  show ((reticleStep inp (pointingStep now inp.pointingAtPlatform
    ((edgeStep (scanRepositionButtons inp.inputSources) s).1))).1).audioIsPlaying
      = s.audioIsPlaying
  rw [(reticleStep_fields _ _).1,
      (pointingStep_fields _ _ _).2.2.2.2.2.2,
      (edgeStep_fields _ _).2.2.2.2.2.1]

theorem render_audio (now : ℚ) (fi : Option FrameInput) (s : CState) :
    ((render now fi s).1).audioIsPlaying = s.audioIsPlaying := by
  rcases fi with _ | inp
  · simp only [render]
    have hf := placardFadeStep_fields now s
    split <;> simp [hf.1]
  · show ((renderXRFrame now inp (placardFadeStep now s)).1).audioIsPlaying
      = s.audioIsPlaying
    rw [renderXRFrame_audio, (placardFadeStep_fields now s).1]

theorem startXRSession_audio (res : StartResult) (s : CState) :
    ((startXRSession res s).1).audioIsPlaying = s.audioIsPlaying := by
  have hse := (onSessionEnded_fields { s with startButtonDisabled := true }).2.1
  rcases res with _ | b <;> simp only [startXRSession] <;>
    split <;> (try split) <;> simp_all [placeAtDefaultPosition_fields]

theorem onSelect_preserves_playing (s : CState) (h : s.audioIsPlaying = true) :
    ((onSelect s).1).audioIsPlaying = true := by
  simp only [onSelect]
  split
  · simp only [playAudio]; split <;> simp_all
  · split <;> simp_all [placeAtDefaultPosition_fields]

/-- C10: once the spatial audio is playing nothing stops it — looping is
configured in the audio-load callback, and select, play, reposition,
session end, a new session start, and every render tick all leave the
playing flag latched on. -/
theorem audio_playback_persists :
    (∀ s : CState, (onAudioLoaded s).audioLoop = true) ∧
    (∀ s : CState, s.audioIsPlaying = true →
      ((onSelect s).1).audioIsPlaying = true ∧
      ((playAudio s).1).audioIsPlaying = true ∧
      (enableRepositioning s).audioIsPlaying = true ∧
      (onSessionEnded s).audioIsPlaying = true ∧
      (∀ res : StartResult, ((startXRSession res s).1).audioIsPlaying = true) ∧
      (∀ (now : ℚ) (fi : Option FrameInput),
        ((render now fi s).1).audioIsPlaying = true)) := by
  refine ⟨fun s => rfl, fun s h => ⟨onSelect_preserves_playing s h, ?_, ?_, ?_, ?_, ?_⟩⟩
  · simp only [playAudio]; split <;> simp_all
  · rw [(enableRepositioning_fields s).2.2.2.2.2.2]; exact h
  · rw [(onSessionEnded_fields s).2.1]; exact h
  · intro res; rw [startXRSession_audio]; exact h
  · intro now fi; rw [render_audio]; exact h

/-- C10 witness: persistence of playback at the concrete playing committed
state across reposition, session end, a retried session start, and one XR
frame. -/
theorem audio_playback_persists_witness :
    (onAudioLoaded initialState).audioLoop = true ∧
    (enableRepositioning playingPlacedState).audioIsPlaying = true ∧
    (onSessionEnded playingPlacedState).audioIsPlaying = true ∧
    ((startXRSession (StartResult.err false) playingPlacedState).1).audioIsPlaying = true ∧
    ((render 0 (some idleFrame) playingPlacedState).1).audioIsPlaying = true :=
  ⟨audio_playback_persists.1 initialState,
   (audio_playback_persists.2 playingPlacedState rfl).2.2.1,
   (audio_playback_persists.2 playingPlacedState rfl).2.2.2.1,
   (audio_playback_persists.2 playingPlacedState rfl).2.2.2.2.1 (StartResult.err false),
   (audio_playback_persists.2 playingPlacedState rfl).2.2.2.2.2 0 (some idleFrame)⟩

/-! ## Claim C9 -/

theorem edgeStep_noFire (p : Bool) (s : CState)
    (h : (p && !s.xButtonPressed) = false) :
    edgeStep p s = ({ s with xButtonPressed := p }, false) := by
  simp [edgeStep, h]

theorem reticleStep_placed (inp : FrameInput) (s : CState)
    (h : s.isPlaced = true) :
    reticleStep inp s = ({ s with reticleVisible := false }, false) := by
  simp [reticleStep, h]

theorem requestHitTestSource_pos (b : Bool) (s : CState) :
    (requestHitTestSource b s).platformPosition = s.platformPosition ∨
    (requestHitTestSource b s).platformPosition = defaultPosition := by
  simp only [requestHitTestSource]
  split
  · left; rfl
  · split
    · left; simp
    · right; exact (placeAtDefaultPosition_fields _).1

theorem reticleStep_pos (inp : FrameInput) (s : CState) :
    ((reticleStep inp s).1).platformPosition = s.platformPosition ∨
    ((reticleStep inp s).1).platformPosition = defaultPosition := by
  simp only [reticleStep]
  repeat' split
  all_goals simp [requestHitTestSource_pos]

theorem reticleStep_pos_of_source (inp : FrameInput) (s : CState)
    (h : s.hitTestSource = true) :
    ((reticleStep inp s).1).platformPosition = s.platformPosition := by
  simp only [reticleStep, h]
  repeat' split
  all_goals simp_all

theorem onSelect_pos (s : CState) :
    ((onSelect s).1).platformPosition = s.platformPosition ∨
    ((onSelect s).1).platformPosition = s.reticlePosition ∨
    ((onSelect s).1).platformPosition = defaultPosition := by
  simp only [onSelect]
  split
  · simp only [playAudio]; split
    · right; left; simp
    · right; left; simp
  · split
    · right; right; exact (placeAtDefaultPosition_fields s).1
    · left; rfl

/-- C9: while the object is committed, a frame with no reposition edge
forces the reticle invisible, performs no hit-test sampling, and leaves
the committed platform position and the placement latch untouched; even
on an edge frame the position is untouched as long as the feed exists;
and the only ways the platform position ever changes are the hit-test
fallback to the default position (in the frame loop) and a select, which
moves it to the reticle sample or to the default position. -/
theorem placed_frame_invariant :
    (∀ (now : ℚ) (inp : FrameInput) (s : CState),
      s.isPlaced = true →
      (scanRepositionButtons inp.inputSources && !s.xButtonPressed) = false →
      ((renderXRFrame now inp s).1).reticleVisible = false ∧
      ((renderXRFrame now inp s).2).hitSampled = false ∧
      ((renderXRFrame now inp s).1).platformPosition = s.platformPosition ∧
      ((renderXRFrame now inp s).1).isPlaced = true) ∧
    (∀ (now : ℚ) (inp : FrameInput) (s : CState),
      s.isPlaced = true → s.hitTestSource = true →
      ((renderXRFrame now inp s).1).platformPosition = s.platformPosition) ∧
    (∀ (now : ℚ) (inp : FrameInput) (s : CState),
      ((renderXRFrame now inp s).1).platformPosition ≠ s.platformPosition →
      ((renderXRFrame now inp s).1).platformPosition = defaultPosition) ∧
    (∀ s : CState,
      ((onSelect s).1).platformPosition ≠ s.platformPosition →
      ((onSelect s).1).platformPosition = s.reticlePosition ∨
      ((onSelect s).1).platformPosition = defaultPosition) := by
  have hstage : ∀ (now : ℚ) (inp : FrameInput) (s : CState),
      (renderXRFrame now inp s).1 =
        (reticleStep inp (pointingStep now inp.pointingAtPlatform
          ((edgeStep (scanRepositionButtons inp.inputSources) s).1))).1 ∧
      (renderXRFrame now inp s).2 =
        ⟨(edgeStep (scanRepositionButtons inp.inputSources) s).2,
         (reticleStep inp (pointingStep now inp.pointingAtPlatform
           ((edgeStep (scanRepositionButtons inp.inputSources) s).1))).2⟩ :=
    fun now inp s => ⟨rfl, rfl⟩
  refine ⟨?_, ?_, ?_, ?_⟩
  · intro now inp s hp hnof
    rw [(hstage now inp s).1, (hstage now inp s).2, edgeStep_noFire _ s hnof]
    have hpt := pointingStep_fields now inp.pointingAtPlatform
      { s with xButtonPressed := scanRepositionButtons inp.inputSources }
    have hpl : (pointingStep now inp.pointingAtPlatform
        { s with xButtonPressed := scanRepositionButtons inp.inputSources }).isPlaced
        = true := by rw [hpt.2.2.2.2.1]; simpa using hp
    rw [reticleStep_placed inp _ hpl]
    refine ⟨rfl, rfl, ?_, ?_⟩
    · show (pointingStep now inp.pointingAtPlatform
        { s with xButtonPressed := scanRepositionButtons inp.inputSources }).platformPosition
          = s.platformPosition
      rw [hpt.2.2.2.1]
    · exact hpl
  · intro now inp s hp hsrc
    rw [(hstage now inp s).1]
    have he := edgeStep_fields (scanRepositionButtons inp.inputSources) s
    have hpt := pointingStep_fields now inp.pointingAtPlatform
      ((edgeStep (scanRepositionButtons inp.inputSources) s).1)
    have hsrc2 : (pointingStep now inp.pointingAtPlatform
        ((edgeStep (scanRepositionButtons inp.inputSources) s).1)).hitTestSource = true := by
      rw [hpt.1, he.1, hsrc]
    rw [reticleStep_pos_of_source inp _ hsrc2, hpt.2.2.2.1, he.2.2.2.1]
  · intro now inp s hne
    rw [(hstage now inp s).1] at hne ⊢
    have he := edgeStep_fields (scanRepositionButtons inp.inputSources) s
    have hpt := pointingStep_fields now inp.pointingAtPlatform
      ((edgeStep (scanRepositionButtons inp.inputSources) s).1)
    rcases reticleStep_pos inp (pointingStep now inp.pointingAtPlatform
        ((edgeStep (scanRepositionButtons inp.inputSources) s).1)) with hcase | hcase
    · exfalso
      apply hne
      rw [hcase, hpt.2.2.2.1, he.2.2.2.1]
    · exact hcase
  · intro s hne
    rcases onSelect_pos s with hcase | hcase
    · exact absurd hcase hne
    · exact hcase

/-- C9 witness: one quiet frame at the concrete playing committed state. -/
theorem placed_frame_invariant_witness :
    ((renderXRFrame 0 idleFrame playingPlacedState).1).reticleVisible = false ∧
    ((renderXRFrame 0 idleFrame playingPlacedState).2).hitSampled = false ∧
    ((renderXRFrame 0 idleFrame playingPlacedState).1).platformPosition =
      playingPlacedState.platformPosition :=
  ⟨(placed_frame_invariant.1 0 idleFrame playingPlacedState rfl rfl).1,
   (placed_frame_invariant.1 0 idleFrame playingPlacedState rfl rfl).2.1,
   placed_frame_invariant.2.1 0 idleFrame playingPlacedState rfl rfl⟩

/-! ## Claim C3 -/

theorem renderXRFrame_xbp (now : ℚ) (inp : FrameInput) (s : CState) :
    ((renderXRFrame now inp s).1).xButtonPressed =
      scanRepositionButtons inp.inputSources ∧
    ((renderXRFrame now inp s).2).repositionFired =
      (scanRepositionButtons inp.inputSources && !s.xButtonPressed) := by
  constructor
  · show ((reticleStep inp (pointingStep now inp.pointingAtPlatform
      ((edgeStep (scanRepositionButtons inp.inputSources) s).1))).1).xButtonPressed
        = scanRepositionButtons inp.inputSources
    rw [(reticleStep_fields _ _).2.2,
        (pointingStep_fields _ _ _).2.2.2.2.2.1,
        (edgeStep_fields _ _).2.2.2.2.1]
  · show (edgeStep (scanRepositionButtons inp.inputSources) s).2
        = (scanRepositionButtons inp.inputSources && !s.xButtonPressed)
    exact (edgeStep_fields _ _).2.2.2.2.2.2

theorem edgeStep_isPlaced (p : Bool) (s : CState) :
    ((edgeStep p s).1).isPlaced =
      (if (p && !s.xButtonPressed) = true then false else s.isPlaced) := by
  simp only [edgeStep]
  split <;> simp [enableRepositioning_fields]

theorem runXRFrames_hold_zero (now : ℚ) (prs : FrameInput) (k : ℕ)
    (hscan : scanRepositionButtons prs.inputSources = true) :
    ∀ s : CState, s.xButtonPressed = true →
      (runXRFrames now s (List.replicate k prs)).2 = 0 ∧
      ((runXRFrames now s (List.replicate k prs)).1).xButtonPressed = true := by
  induction k with
  | zero => exact fun s hxbp => ⟨rfl, hxbp⟩
  | succ n ih =>
      intro s hxbp
      have hx := renderXRFrame_xbp now prs s
      have hfired : ((renderXRFrame now prs s).2).repositionFired = false := by
        rw [hx.2, hxbp, hscan]; rfl
      have hxbp2 : ((renderXRFrame now prs s).1).xButtonPressed = true := by
        rw [hx.1, hscan]
      obtain ⟨hz, hx2⟩ := ih ((renderXRFrame now prs s).1) hxbp2
      rw [List.replicate_succ]
      simp only [runXRFrames]
      exact ⟨by rw [hfired, hz]; rfl, hx2⟩

/-- C3: the reposition trigger is edge-detected — across a run of N ≥ 1
consecutive frames holding a reposition button (gamepad button 4 or 5 of
any input source) pressed, preceded by a frame with the button released,
exactly one reposition transition fires; and a frame that fires the
transition ends with the placement latch cleared (Placed to Unplaced). -/
theorem reposition_edge_detected :
    (∀ (now : ℚ) (s : CState) (rel prs : FrameInput) (N : ℕ),
      scanRepositionButtons rel.inputSources = false →
      scanRepositionButtons prs.inputSources = true →
      1 ≤ N →
      (runXRFrames now s (rel :: List.replicate N prs)).2 = 1) ∧
    (∀ (now : ℚ) (inp : FrameInput) (s : CState),
      ((renderXRFrame now inp s).2).repositionFired = true →
      ((renderXRFrame now inp s).1).isPlaced = false) := by
  constructor
  · intro now s rel prs N hrel hprs hN
    obtain ⟨m, rfl⟩ : ∃ m, N = m + 1 := ⟨N - 1, (Nat.succ_pred_eq_of_pos hN).symm⟩
    have hx0 := renderXRFrame_xbp now rel s
    have hfired0 : ((renderXRFrame now rel s).2).repositionFired = false := by
      rw [hx0.2, hrel]; rfl
    have hxbp0 : ((renderXRFrame now rel s).1).xButtonPressed = false := by
      rw [hx0.1, hrel]
    have hx1 := renderXRFrame_xbp now prs ((renderXRFrame now rel s).1)
    have hfired1 : ((renderXRFrame now prs ((renderXRFrame now rel s).1)).2).repositionFired
        = true := by
      rw [hx1.2, hxbp0, hprs]; rfl
    have hxbp1 : ((renderXRFrame now prs ((renderXRFrame now rel s).1)).1).xButtonPressed
        = true := by
      rw [hx1.1, hprs]
    obtain ⟨hz, -⟩ := runXRFrames_hold_zero now prs m hprs
      ((renderXRFrame now prs ((renderXRFrame now rel s).1)).1) hxbp1
    rw [List.replicate_succ]
    simp only [runXRFrames]
    rw [hfired0, hfired1, hz]
    rfl
  · intro now inp s hf
    have hfeq : (scanRepositionButtons inp.inputSources && !s.xButtonPressed) = true := by
      rw [← (renderXRFrame_xbp now inp s).2]; exact hf
    show ((reticleStep inp (pointingStep now inp.pointingAtPlatform
      ((edgeStep (scanRepositionButtons inp.inputSources) s).1))).1).isPlaced = false
    rw [(reticleStep_fields _ _).2.1,
        (pointingStep_fields _ _ _).2.2.2.2.1,
        edgeStep_isPlaced, hfeq]
    rfl

/-- C3 witness: a released frame followed by three held frames at the
concrete committed state fires exactly one transition. -/
theorem reposition_edge_detected_witness :
    (runXRFrames 0 playingPlacedState
      (idleFrame :: List.replicate 3 pressFrame)).2 = 1 :=
  reposition_edge_detected.1 0 playingPlacedState idleFrame pressFrame 3
    rfl rfl (by decide)

/-! ## Claim C7 -/

theorem placardFadeStep_opacity (now t0 : ℚ) (s : CState)
    (hst : s.placardFadeStartTime = some t0)
    (hsome : s.placardSome = true) (hvis : s.placardVisible = true) :
    (placardFadeStep now s).placardOpacity =
      (min ((now - t0) / fadeInDuration) 1) *
        (2 - min ((now - t0) / fadeInDuration) 1) := by
  simp only [placardFadeStep, hst]
  rw [if_pos (by simp [hsome, hvis])]
  split <;> simp

theorem placardFadeStep_marker_cleared (now t0 : ℚ) (s : CState)
    (hst : s.placardFadeStartTime = some t0)
    (hsome : s.placardSome = true) (hvis : s.placardVisible = true)
    (hdone : fadeInDuration ≤ now - t0) :
    (placardFadeStep now s).placardFadeStartTime = none := by
  have hply : (1 : ℚ) ≤ (now - t0) / fadeInDuration := by
    have h15 : (now - t0) / fadeInDuration = (now - t0) * (1 / 1500) := by
      simp only [fadeInDuration]
      ring
    rw [h15]
    simp only [fadeInDuration] at hdone
    linarith
  have hge : 1 ≤ min ((now - t0) / fadeInDuration) 1 := le_min hply le_rfl
  simp only [placardFadeStep, hst]
  rw [if_pos (by simp [hsome, hvis]), if_pos hge]

theorem ease_clamped_mono {a b : ℚ} (h : a ≤ b) :
    (min (a / fadeInDuration) 1) * (2 - min (a / fadeInDuration) 1) ≤
    (min (b / fadeInDuration) 1) * (2 - min (b / fadeInDuration) 1) := by
  have hab : a / fadeInDuration ≤ b / fadeInDuration := by
    simp only [fadeInDuration]
    linarith
  have hpq : min (a / fadeInDuration) 1 ≤ min (b / fadeInDuration) 1 :=
    min_le_min hab le_rfl
  have h1 : min (a / fadeInDuration) 1 ≤ 1 := min_le_right _ _
  have h2 : min (b / fadeInDuration) 1 ≤ 1 := min_le_right _ _
  nlinarith [mul_nonneg (sub_nonneg.mpr hpq)
    (show (0 : ℚ) ≤ 2 - min (a / fadeInDuration) 1 - min (b / fadeInDuration) 1 by
      linarith)]

theorem ease_clamped_bounds {e : ℚ} (h : 0 ≤ e) :
    0 ≤ (min (e / fadeInDuration) 1) * (2 - min (e / fadeInDuration) 1) ∧
    (min (e / fadeInDuration) 1) * (2 - min (e / fadeInDuration) 1) ≤ 1 := by
  have h0 : 0 ≤ e / fadeInDuration := by
    simp only [fadeInDuration]
    positivity
  have hp0 : 0 ≤ min (e / fadeInDuration) 1 := le_min h0 zero_le_one
  have hp1 : min (e / fadeInDuration) 1 ≤ 1 := min_le_right _ _
  constructor
  · nlinarith
  · nlinarith [sq_nonneg (1 - min (e / fadeInDuration) 1)]

/-- C7: during a fade-in the placard opacity computed by the render step
is the ease-out map of clamped progress: it is non-decreasing in the
frame time, stays within [0, 1] for frames at or after the fade start,
equals exactly 1 at the configured 1500 ms duration, at which frame the
fade start marker is cleared; and hiding the placard on pointing-exit, or
a reposition, snaps the opacity to 0 immediately. -/
theorem placard_fade_shape :
    (∀ (s : CState) (t0 n1 n2 : ℚ),
      s.placardFadeStartTime = some t0 → s.placardSome = true →
      s.placardVisible = true → n1 ≤ n2 →
      (placardFadeStep n1 s).placardOpacity ≤ (placardFadeStep n2 s).placardOpacity) ∧
    (∀ (s : CState) (t0 now : ℚ),
      s.placardFadeStartTime = some t0 → s.placardSome = true →
      s.placardVisible = true → t0 ≤ now →
      0 ≤ (placardFadeStep now s).placardOpacity ∧
      (placardFadeStep now s).placardOpacity ≤ 1) ∧
    (∀ (s : CState) (t0 : ℚ),
      s.placardFadeStartTime = some t0 → s.placardSome = true →
      s.placardVisible = true →
      (placardFadeStep (t0 + fadeInDuration) s).placardOpacity = 1 ∧
      (placardFadeStep (t0 + fadeInDuration) s).placardFadeStartTime = none) ∧
    (∀ s : CState, s.placardSome = true → s.placardVisible = true →
      (hidePlacard s).placardOpacity = 0 ∧
      (enableRepositioning s).placardOpacity = 0) := by
  refine ⟨?_, ?_, ?_, ?_⟩
  · intro s t0 n1 n2 hst hsome hvis h12
    rw [placardFadeStep_opacity n1 t0 s hst hsome hvis,
        placardFadeStep_opacity n2 t0 s hst hsome hvis]
    exact ease_clamped_mono (by linarith)
  · intro s t0 now hst hsome hvis hle
    rw [placardFadeStep_opacity now t0 s hst hsome hvis]
    exact ease_clamped_bounds (by linarith)
  · intro s t0 hst hsome hvis
    constructor
    · rw [placardFadeStep_opacity (t0 + fadeInDuration) t0 s hst hsome hvis]
      have he : t0 + fadeInDuration - t0 = fadeInDuration := by ring
      rw [he]
      norm_num [fadeInDuration]
    · exact placardFadeStep_marker_cleared (t0 + fadeInDuration) t0 s hst hsome hvis
        (by linarith)
  · intro s hsome hvis
    constructor
    · simp [hidePlacard, hsome, hvis]
    · simp [enableRepositioning, hidePlacard, hsome, hvis]

/-- C7 witness: the fade at the concrete fading state — opacity grows from
frame time 1100 to 1600, is exactly 1 at start + 1500, and force-hiding
snaps it to 0. -/
theorem placard_fade_shape_witness :
    (placardFadeStep 1100 fadingState).placardOpacity ≤
      (placardFadeStep 1600 fadingState).placardOpacity ∧
    (placardFadeStep (1000 + fadeInDuration) fadingState).placardOpacity = 1 ∧
    (placardFadeStep (1000 + fadeInDuration) fadingState).placardFadeStartTime = none ∧
    (hidePlacard fadingState).placardOpacity = 0 :=
  ⟨placard_fade_shape.1 fadingState 1000 1100 1600 rfl rfl rfl (by norm_num),
   (placard_fade_shape.2.2.1 fadingState 1000 rfl rfl rfl).1,
   (placard_fade_shape.2.2.1 fadingState 1000 rfl rfl rfl).2,
   (placard_fade_shape.2.2.2 fadingState rfl rfl).1⟩
